import Mathlib

/-!
Verification development for the Nimble Encounter Builder combat core.

The definitions below are a shallow embedding of the Python modules
`modules/combatants.py`, `modules/combatManager.py` and
`modules/persistence.py`:

* Python `int` fields become `Int`; configuration threshold floats and the
  parsed level values become `ℚ` (all concrete thresholds used by the
  program — 0.5, 0.25, 0.75, 1.25, … — are exactly representable as
  binary floats, so rational arithmetic is faithful on them);
* in-place mutators become state-passing functions returning the updated
  record;
* code that can raise returns `Except`.

Definitions keep the source's names and translate the source line by
line; theorems about the frozen specification claims follow at the end.
-/

/-- Python `str.strip()`: drop whitespace from both ends.  (Modelled
directly on the character list so that it evaluates by `decide`.) -/
def pyStrip (s : String) : String :=
  ⟨((s.data.dropWhile Char.isWhitespace).reverse.dropWhile Char.isWhitespace).reverse⟩

/-- `add_condition` from `modules/combatants.py` (the body is shared
verbatim by `Hero` and `MonsterInstance`): strip the tag, append it only
if it is non-empty and not already present. -/
def addCond (conds : List String) (c : String) : List String :=
  let c := pyStrip c
  if c ≠ "" ∧ c ∉ conds then conds ++ [c] else conds

/-- `remove_condition` from `modules/combatants.py`: strip the tag and
remove its first occurrence if present. -/
def removeCond (conds : List String) (c : String) : List String :=
  let c := pyStrip c
  if c ∈ conds then conds.erase c else conds

/-- The slice of `config.Config` (from `modules/config.py`) read by the
combat core: status-band thresholds, marker palette and start number,
and encounter-difficulty thresholds.  Defaults are the dataclass
defaults from the source. -/
structure Config where
  hero_bloodied_threshold : ℚ := 1/2
  hero_critical_threshold : ℚ := 1/4
  monster_bloodied_threshold : ℚ := 1/2
  monster_critical_threshold : ℚ := 1/4
  marker_palette : List String := []
  marker_start_number : Int := 1
  encounter_difficulty_easy : ℚ := 1/2
  encounter_difficulty_medium : ℚ := 3/4
  encounter_difficulty_hard : ℚ := 1
  encounter_difficulty_deadly_max : ℚ := 5/4
  deriving Repr, DecidableEq

/-- The `Hero` dataclass from `modules/combatants.py`. -/
structure Hero where
  name : String := "New Hero"
  level : Int := 1
  class_name : String := ""
  player : String := ""
  faction : String := "Heroes"
  hp_max : Int := 10
  hp_current : Int := 10
  temp_hp : Int := 0
  resource_1_name : String := ""
  resource_1_current : Int := 0
  resource_1_max : Int := 0
  conditions : List String := []
  notes_public : String := ""
  notes_gm : String := ""
  concentrating : Bool := false
  deriving Repr, DecidableEq

/-- `Hero.effective_hp`. -/
def Hero.effective_hp (h : Hero) : Int := h.hp_current + h.temp_hp

/-- `Hero.add_condition` (delegates to the shared body). -/
def Hero.add_condition (h : Hero) (c : String) : Hero :=
  { h with conditions := addCond h.conditions c }

/-- `Hero.remove_condition` (delegates to the shared body). -/
def Hero.remove_condition (h : Hero) (c : String) : Hero :=
  { h with conditions := removeCond h.conditions c }

/-- `Hero.apply_damage`: no-op for non-positive amounts; temp HP absorbs
first; the remainder subtracts from `hp_current`, clamped at 0; finally
the "Dying" tag is removed (HP above 0) or added (HP at 0). -/
def Hero.apply_damage (h : Hero) (amount : Int) : Hero :=
  if amount ≤ 0 then h
  else
    let used := if 0 < h.temp_hp then min h.temp_hp amount else 0
    let temp := h.temp_hp - used
    let amt := amount - used
    let hp := if 0 < amt then
        (if h.hp_current - amt < 0 then 0 else h.hp_current - amt)
      else h.hp_current
    if 0 < hp then
      { h with temp_hp := temp, hp_current := hp,
               conditions := removeCond h.conditions "Dying" }
    else
      { h with temp_hp := temp, hp_current := hp,
               conditions := addCond h.conditions "Dying" }

/-- `Hero.apply_healing`: no-op for non-positive amounts; a negative
`hp_current` is first normalized to 0 (when `hp_max > 0`); heals
`hp_current` only, clamped to `hp_max`; removes "Dying" when the result
is above 0. -/
def Hero.apply_healing (h : Hero) (amount : Int) : Hero :=
  if amount ≤ 0 then h
  else
    let hp0 := if h.hp_current ≤ 0 ∧ 0 < h.hp_max then 0 else h.hp_current
    let hp1 := hp0 + amount
    let hp2 := if h.hp_max < hp1 then h.hp_max else hp1
    if 0 < hp2 then
      { h with hp_current := hp2, conditions := removeCond h.conditions "Dying" }
    else
      { h with hp_current := hp2 }

/-- `Hero.set_temp_hp`: replace temp HP, clamped at 0. -/
def Hero.set_temp_hp (h : Hero) (amount : Int) : Hero :=
  { h with temp_hp := max 0 amount }

/-- `Hero.is_bloodied`: strictly between the critical threshold and the
bloodied threshold (inclusive), and still above 0 HP. -/
def Hero.is_bloodied (cfg : Config) (h : Hero) : Bool :=
  if h.hp_max ≤ 0 then false
  else
    decide (0 < h.hp_current ∧
      (h.hp_current : ℚ) ≤ (h.hp_max : ℚ) * cfg.hero_bloodied_threshold ∧
      (h.hp_max : ℚ) * cfg.hero_critical_threshold < (h.hp_current : ℚ))

/-- `Hero.is_critical`: at or below the critical threshold and above 0 HP. -/
def Hero.is_critical (cfg : Config) (h : Hero) : Bool :=
  if h.hp_max ≤ 0 then false
  else
    decide (0 < h.hp_current ∧
      (h.hp_current : ℚ) ≤ (h.hp_max : ℚ) * cfg.hero_critical_threshold)

/-- `Hero.is_dying`. -/
def Hero.is_dying (h : Hero) : Bool := decide (h.hp_current ≤ 0)

/-- The `MonsterInstance` dataclass from `modules/combatants.py`.
Lean requires a default for every field here only to ease building test
values; the mutators below never consult these defaults. -/
structure MonsterInstance where
  name : String := ""
  template_file : String := ""
  legendary : Bool := false
  level : String := ""
  armor : String := ""
  speed : String := ""
  size : String := ""
  saves : String := ""
  flavor : String := ""
  actions : List String := []
  special_actions : List String := []
  bloodied_text : String := ""
  last_stand_text : String := ""
  last_stand_hp_value : Int := 0
  biome_loot : List String := []
  type : String := ""
  biome : String := ""
  hp_max : Int := 0
  hp_current : Int := 0
  temp_hp : Int := 0
  last_stand_triggered : Bool := false
  dead : Bool := false
  group : String := ""
  active : Bool := true
  concentrating : Bool := false
  conditions : List String := []
  notes_public : String := ""
  notes_gm : String := ""
  marker_color : String := ""
  marker_number : Int := 0
  shown_bloodied_popup : Bool := false
  shown_last_stand_popup : Bool := false
  deriving Repr, DecidableEq

/-- `MonsterInstance.effective_hp`. -/
def MonsterInstance.effective_hp (m : MonsterInstance) : Int :=
  m.hp_current + m.temp_hp

/-- `MonsterInstance.is_last_stand`. -/
def MonsterInstance.is_last_stand (m : MonsterInstance) : Bool :=
  m.last_stand_triggered && !m.dead

/-- `MonsterInstance.add_condition`. -/
def MonsterInstance.add_condition (m : MonsterInstance) (c : String) : MonsterInstance :=
  { m with conditions := addCond m.conditions c }

/-- `MonsterInstance.remove_condition`. -/
def MonsterInstance.remove_condition (m : MonsterInstance) (c : String) : MonsterInstance :=
  { m with conditions := removeCond m.conditions c }

/-- `MonsterInstance.apply_damage`: no-op for non-positive amounts or an
already-dead monster; temp HP absorbs first; the remainder subtracts
from `hp_current` (no clamp).  If HP stays above 0, "Dying" is removed.
Otherwise: a legendary monster with non-empty `last_stand_text` whose
last stand has not yet triggered enters Last Stand (HP reset to
`last_stand_hp_value`, with Python's `x or 1` falling back to 1 when the
value is 0; "Last Stand" added, "Dying" removed, not dead); any other
monster dies at exactly 0 HP with "Last Stand" removed if present. -/
def MonsterInstance.apply_damage (m : MonsterInstance) (amount : Int) : MonsterInstance :=
  if amount ≤ 0 ∨ m.dead then m
  else
    let used := if 0 < m.temp_hp then min m.temp_hp amount else 0
    let temp := m.temp_hp - used
    let amt := amount - used
    let hp := if 0 < amt then m.hp_current - amt else m.hp_current
    if 0 < hp then
      { m with temp_hp := temp, hp_current := hp,
               conditions := removeCond m.conditions "Dying" }
    else if m.legendary ∧ m.last_stand_text ≠ "" ∧ ¬ m.last_stand_triggered then
      { m with temp_hp := temp,
               last_stand_triggered := true,
               hp_current := if m.last_stand_hp_value = 0 then 1 else m.last_stand_hp_value,
               dead := false,
               conditions := removeCond (addCond m.conditions "Last Stand") "Dying" }
    else
      { m with temp_hp := temp, hp_current := 0, dead := true,
               conditions := if "Last Stand" ∈ m.conditions then
                   removeCond m.conditions "Last Stand"
                 else m.conditions }

/-- `MonsterInstance.apply_healing`: no-op for non-positive amounts or a
dead monster; heals `hp_current` only, clamped to `hp_max`; the
conditions list is untouched. -/
def MonsterInstance.apply_healing (m : MonsterInstance) (amount : Int) : MonsterInstance :=
  if amount ≤ 0 ∨ m.dead then m
  else
    let hp1 := m.hp_current + amount
    { m with hp_current := if m.hp_max < hp1 then m.hp_max else hp1 }

/-- `MonsterInstance.set_temp_hp`: replace temp HP, clamped at 0. -/
def MonsterInstance.set_temp_hp (m : MonsterInstance) (amount : Int) : MonsterInstance :=
  { m with temp_hp := max 0 amount }

/-- `MonsterInstance.is_bloodied`. -/
def MonsterInstance.is_bloodied (cfg : Config) (m : MonsterInstance) : Bool :=
  if m.hp_max ≤ 0 then false
  else
    decide (0 < m.hp_current ∧
      (m.hp_current : ℚ) ≤ (m.hp_max : ℚ) * cfg.monster_bloodied_threshold ∧
      (m.hp_max : ℚ) * cfg.monster_critical_threshold < (m.hp_current : ℚ))

/-- `MonsterInstance.is_critical`. -/
def MonsterInstance.is_critical (cfg : Config) (m : MonsterInstance) : Bool :=
  if m.hp_max ≤ 0 then false
  else
    decide (0 < m.hp_current ∧
      (m.hp_current : ℚ) ≤ (m.hp_max : ℚ) * cfg.monster_critical_threshold)

/-! ## CombatManager: level parsing and encounter difficulty -/

/-- Value of a digit run, most significant first (helper for the numeric
string parsers below). -/
def digitsVal (cs : List Char) : Nat :=
  cs.foldl (fun n c => n * 10 + (c.toNat - 48)) 0

/-- Parse a non-empty all-digit character run, else `none`. -/
def parseNatDigits (cs : List Char) : Option Nat :=
  if cs ≠ [] ∧ cs.all Char.isDigit then some (digitsVal cs) else none

/-- Models CPython `float(token)` on the plain decimal grammar that the
level strings use: optional sign, digits with an optional decimal point
("3", "3.5", ".5", "2.").  Exponents and the `inf`/`nan` spellings are
outside the modelled grammar and map to `none` (a `ValueError`). -/
def pyFloatUnsigned (cs : List Char) : Option ℚ :=
  let ip := cs.takeWhile Char.isDigit
  let rest := cs.drop ip.length
  match rest with
  | [] => if ip = [] then none else some (digitsVal ip : ℚ)
  | '.' :: fp =>
      if (ip ≠ [] ∨ fp ≠ []) ∧ fp.all Char.isDigit then
        some ((digitsVal ip : ℚ) + (digitsVal fp : ℚ) / (10 : ℚ) ^ fp.length)
      else none
  | _ => none

/-- Sign handling of CPython `float(token)`. -/
def pyFloat (cs : List Char) : Option ℚ :=
  match cs with
  | '-' :: rest => (pyFloatUnsigned rest).map (fun q => -q)
  | '+' :: rest => pyFloatUnsigned rest
  | _ => pyFloatUnsigned cs

/-- A signed integer literal as accepted for a `Fraction` numerator. -/
def pyIntSigned (cs : List Char) : Option Int :=
  match cs with
  | '-' :: rest => (parseNatDigits rest).map (fun n => -(n : Int))
  | '+' :: rest => (parseNatDigits rest).map (fun n => (n : Int))
  | _ => (parseNatDigits cs).map (fun n => (n : Int))

/-- Outcome of `_parse_level_value`: a value, a `ValueError`/`TypeError`
(these two are caught by `total_monster_levels`), or the
`ZeroDivisionError` that `Fraction("n/0")` raises (this one is *not* in
the caller's `except` clause). -/
inductive LevelParse where
  | ok (v : ℚ)
  | valueError
  | zeroDivisionError
  deriving Repr, DecidableEq

/-- Models CPython `Fraction(token)` for a token containing "/": a
signed-digit numerator and an unsigned-digit denominator; a zero
denominator raises `ZeroDivisionError`; any other shape raises
`ValueError`. -/
def pyFraction (cs : List Char) : LevelParse :=
  match cs.splitOn '/' with
  | [num, den] =>
      match pyIntSigned num, parseNatDigits den with
      | some n, some d =>
          if d = 0 then .zeroDivisionError else .ok ((n : ℚ) / (d : ℚ))
      | _, _ => .valueError
  | _ => .valueError

/-- `CombatManager._parse_level_value` on a string-valued level field:
strip; empty gives 0.0; take the first whitespace-delimited token; a
token containing "/" goes through `Fraction`, anything else through
`float`. -/
def CombatManager.parse_level_value (level : String) : LevelParse :=
  let raw := pyStrip level
  if raw = "" then .ok 0
  else
    let token := raw.toList.takeWhile (fun c => ¬ c.isWhitespace)
    if '/' ∈ token then pyFraction token
    else
      match pyFloat token with
      | some v => .ok v
      | none => .valueError

/-- `CombatManager.total_hero_levels`: sum of the integer hero levels. -/
def CombatManager.total_hero_levels (heroes : List Hero) : Int :=
  (heroes.map Hero.level).sum

/-- `CombatManager.total_monster_levels`: sum the parsed level of every
non-dead monster; `ValueError`/`TypeError` from the parse is caught and
the monster skipped; a `ZeroDivisionError` escapes the `except` clause
and propagates (modelled as `Except.error`). -/
def CombatManager.total_monster_levels (monsters : List MonsterInstance) :
    Except String ℚ :=
  monsters.foldlM
    (fun total m =>
      if m.dead then pure total
      else
        match CombatManager.parse_level_value m.level with
        | .ok v => pure (total + v)
        | .valueError => pure total
        | .zeroDivisionError => Except.error "ZeroDivisionError") 0

/-- `CombatManager.encounter_difficulty_ratio` (renamed: the quotient of
monster levels over hero levels).  The hero total is checked first, so
an empty/zero-level hero roster short-circuits to 0.0 without touching
the monster levels. -/
def CombatManager.encounter_difficulty_quotient
    (heroes : List Hero) (monsters : List MonsterInstance) : Except String ℚ :=
  let hero_total := CombatManager.total_hero_levels heroes
  if hero_total = 0 then pure 0
  else do
    let monster_total ← CombatManager.total_monster_levels monsters
    pure (monster_total / (hero_total : ℚ))

/-- The threshold chain inside `CombatManager.encounter_difficulty_label`. -/
def CombatManager.difficulty_label_of (cfg : Config) (q : ℚ) : String :=
  if q = 0 then "No Encounter"
  else if q < cfg.encounter_difficulty_easy then "Easy"
  else if q < cfg.encounter_difficulty_medium then "Medium"
  else if q < cfg.encounter_difficulty_hard then "Hard"
  else if q ≤ cfg.encounter_difficulty_deadly_max then "Deadly"
  else "Very Deadly"

/-- `CombatManager.encounter_difficulty_label`: compute the quotient and
map it through the threshold chain. -/
def CombatManager.encounter_difficulty_label (cfg : Config)
    (heroes : List Hero) (monsters : List MonsterInstance) : Except String String :=
  (CombatManager.encounter_difficulty_quotient heroes monsters).map
    (CombatManager.difficulty_label_of cfg)

/-! ## CombatManager: marker assignment -/

/-- The manager state touched by marker assignment: the live rosters,
the group→color dict (an insertion-ordered association list with unique
keys, like a Python dict), and the palette snapshot taken at
construction from `config.CONFIG.marker_palette`. -/
structure ManagerState where
  heroes : List Hero := []
  monsters : List MonsterInstance := []
  group_color_map : List (String × String) := []
  marker_palette : List String := []
  deriving Repr, DecidableEq

/-- Python dict read `d[k]` / `k in d` on the association-list model. -/
def dictLookup (d : List (String × String)) (k : String) : Option String :=
  (d.find? (fun kv => kv.1 == k)).map (fun kv => kv.2)

/-- `CombatManager._get_or_assign_group_color`: return the group's color
if already mapped; otherwise pick `palette[len(map) % len(palette)]`
(white when the palette is empty) and record it. -/
def CombatManager.get_or_assign_group_color (st : ManagerState) (group : String) :
    String × ManagerState :=
  let key := group
  match dictLookup st.group_color_map key with
  | some c => (c, st)
  | none =>
      let color :=
        if st.marker_palette.length = 0 then "#FFFFFF"
        else st.marker_palette.getD
          (st.group_color_map.length % st.marker_palette.length) "#FFFFFF"
      (color, { st with group_color_map := st.group_color_map ++ [(key, color)] })

/-- `CombatManager._next_marker_number_for_color`: scan the current
monsters for the largest positive marker number carried by this exact
color; `marker_start_number` when the scan stays at its initial 0. -/
def CombatManager.next_marker_number_for_color (cfg : Config)
    (monsters : List MonsterInstance) (color : String) : Int :=
  let start := cfg.marker_start_number
  let max_found := monsters.foldl
    (fun acc m => if m.marker_color == color ∧ acc < m.marker_number then m.marker_number else acc)
    0
  if max_found ≤ 0 then start else max_found + 1

/-- `CombatManager._assign_marker_for_monster`: keep a non-empty
`marker_color` (else assign by group), keep a positive `marker_number`
(else compute it per color). -/
def CombatManager.assign_marker_for_monster (cfg : Config) (st : ManagerState)
    (monster : MonsterInstance) : MonsterInstance × ManagerState :=
  let group := monster.group
  let acRes := CombatManager.get_or_assign_group_color st group
  let auto_color := acRes.1
  let st1 := acRes.2
  let cm :=
    if monster.marker_color ≠ "" then (monster.marker_color, monster)
    else (auto_color, { monster with marker_color := auto_color })
  let color := cm.1
  let monster1 := cm.2
  if 0 < monster1.marker_number then (monster1, st1)
  else
    ({ monster1 with
        marker_number := CombatManager.next_marker_number_for_color cfg st1.monsters color },
     st1)

/-- `CombatManager.add_monster_instance`: normalize markers, then append
to the encounter roster. -/
def CombatManager.add_monster_instance (cfg : Config) (st : ManagerState)
    (inst : MonsterInstance) : ManagerState :=
  let r := CombatManager.assign_marker_for_monster cfg st inst
  { r.2 with monsters := r.2.monsters ++ [r.1] }

/-- Modelled from the spec (claim C3 wording): the auto-assigned marker
number for a color is "(max marker_number over all current monsters with
exactly that marker_color) + 1, or config.marker_start_number if no
monster currently has that color". -/
def specNextMarkerNumber (cfg : Config) (monsters : List MonsterInstance)
    (color : String) : Int :=
  let withColor := monsters.filter (fun m => m.marker_color == color)
  if withColor = [] then cfg.marker_start_number
  else ((withColor.map MonsterInstance.marker_number).max?.getD 0) + 1

/-! ## CombatManager: callback invocation model -/

/-- Result of a `CombatManager` mutation in the callback model: the
updated creature, the log lines emitted through `on_log`, and the
outcome the caller observes (`Except.error` when an uncaught callback
exception propagates out of the mutation). -/
structure MutationResult (α : Type) where
  state : α
  log : List String
  outcome : Except String Unit

/-- `CombatManager._notify_concentration_note`: the hook runs inside
`try/except Exception`; a raised exception is turned into a log line and
never leaves the method.  A callback is modelled by the `Except` value
its invocation produces (`none` = no hook registered). -/
def CombatManager.notify_concentration_note (log : List String)
    (on_concentration_note : Option (Except String Unit)) : List String :=
  match on_concentration_note with
  | none => log
  | some (Except.ok _) => log
  | some (Except.error exc) =>
      log ++ ["Concentration note handler failed: " ++ exc]

/-- `CombatManager._changed`: autosave (a file write, no in-memory state
effect), then invoke `on_state_changed` with **no** surrounding
`try/except` — whatever the callback raises propagates to the caller of
the triggering mutation. -/
def CombatManager.changed (on_state_changed : Option (Except String Unit)) :
    Except String Unit :=
  match on_state_changed with
  | none => Except.ok ()
  | some r => r

/-- `CombatManager.damage_hero`: apply the damage, emit the gated log
lines, fire the concentration hook when the hero is concentrating, then
run `_changed`.  The hero mutation happens in place in the source, so
the updated hero survives regardless of the callback outcome. -/
def CombatManager.damage_hero (log_damage_events log_deaths : Bool)
    (on_state_changed on_concentration_note : Option (Except String Unit))
    (hero : Hero) (amount : Int) : MutationResult Hero :=
  let h := hero.apply_damage amount
  let log1 := if log_damage_events then
      ["Hero " ++ hero.name ++ " takes " ++ toString amount ++ " damage"]
    else []
  let log2 := if h.is_dying && log_deaths then
      log1 ++ ["Hero " ++ hero.name ++ " is DYING!"]
    else log1
  let log3 := if h.concentrating then
      CombatManager.notify_concentration_note log2 on_concentration_note
    else log2
  { state := h, log := log3, outcome := CombatManager.changed on_state_changed }

/-! ## Persistence: JSON object model (`modules/persistence.py`)

A persisted entity dict is modelled as an insertion-ordered association
list of key/value pairs (`JObj`).  The value universe covers exactly the
shapes `asdict` produces for these dataclasses: strings, ints, bools,
string lists, and arrays of nested entity dicts.  Non-dict entries
inside a `heroes`/`monsters` array (which the loaders skip) are not
representable in this well-typed universe; the claims under proof only
quantify over dicts produced by serialization plus extra keys. -/

inductive JVal where
  | s (v : String)
  | i (v : Int)
  | b (v : Bool)
  | ls (v : List String)
  | arr (v : List (List (String × JVal)))

/-- A JSON object: ordered key/value pairs with unique keys when
produced by `asdict`. -/
abbrev JObj : Type := List (String × JVal)

/-- Python dict read `data.get(k)` on the object model. -/
def jLookup (d : JObj) (k : String) : Option JVal :=
  (List.find? (fun kv => kv.1 == k) d).map (fun kv => kv.2)

/-- `data.get(k, default)` for a string field of `cls(**data)`: absent
keys take the dataclass default; a present key must carry a string. -/
def getS (d : JObj) (k : String) (dflt : String) : Option String :=
  match jLookup d k with
  | none => some dflt
  | some (.s v) => some v
  | some _ => none

/-- Integer field binding of `cls(**data)`. -/
def getI (d : JObj) (k : String) (dflt : Int) : Option Int :=
  match jLookup d k with
  | none => some dflt
  | some (.i v) => some v
  | some _ => none

/-- Boolean field binding of `cls(**data)`. -/
def getB (d : JObj) (k : String) (dflt : Bool) : Option Bool :=
  match jLookup d k with
  | none => some dflt
  | some (.b v) => some v
  | some _ => none

/-- String-list field binding of `cls(**data)`. -/
def getLS (d : JObj) (k : String) (dflt : List String) : Option (List String) :=
  match jLookup d k with
  | none => some dflt
  | some (.ls v) => some v
  | some _ => none

/-- A required string field (no dataclass default): `cls(**data)` raises
`TypeError` when it is absent, modelled as `none`. -/
def reqS (d : JObj) (k : String) : Option String :=
  match jLookup d k with
  | some (.s v) => some v
  | _ => none

/-- A required bool field (no dataclass default). -/
def reqB (d : JObj) (k : String) : Option Bool :=
  match jLookup d k with
  | some (.b v) => some v
  | _ => none

/-- `_filter_fields`: keep only the keys that are dataclass fields. -/
def filterFields (d : JObj) (valid : List String) : JObj :=
  List.filter (fun kv => valid.contains kv.1) d

/-- The dataclass field names of `Hero`, in declaration order. -/
def heroFields : List String :=
  ["name", "level", "class_name", "player", "faction",
   "hp_max", "hp_current", "temp_hp",
   "resource_1_name", "resource_1_current", "resource_1_max",
   "conditions", "notes_public", "notes_gm", "concentrating"]

/-- `Hero.to_dict` = `dataclasses.asdict`: every field, in declaration
order. -/
def heroToDict (h : Hero) : JObj :=
  [("name", .s h.name), ("level", .i h.level), ("class_name", .s h.class_name),
   ("player", .s h.player), ("faction", .s h.faction),
   ("hp_max", .i h.hp_max), ("hp_current", .i h.hp_current), ("temp_hp", .i h.temp_hp),
   ("resource_1_name", .s h.resource_1_name),
   ("resource_1_current", .i h.resource_1_current),
   ("resource_1_max", .i h.resource_1_max),
   ("conditions", .ls h.conditions), ("notes_public", .s h.notes_public),
   ("notes_gm", .s h.notes_gm), ("concentrating", .b h.concentrating)]

/-- The field-by-field value binding of `Hero(**data)` assuming every
binding succeeds: a present key yields its value, an absent key the
dataclass default (`heroDictOk` below checks the success of each
binding; `heroFromDict` combines the two). -/
def heroOfDict (d : JObj) : Hero :=
  { name := (reqS d "name").getD ""
    level := (getI d "level" 1).getD 0
    class_name := (getS d "class_name" "").getD ""
    player := (getS d "player" "").getD ""
    faction := (getS d "faction" "Heroes").getD ""
    hp_max := (getI d "hp_max" 10).getD 0
    hp_current := (getI d "hp_current" 10).getD 0
    temp_hp := (getI d "temp_hp" 0).getD 0
    resource_1_name := (getS d "resource_1_name" "").getD ""
    resource_1_current := (getI d "resource_1_current" 0).getD 0
    resource_1_max := (getI d "resource_1_max" 0).getD 0
    conditions := (getLS d "conditions" []).getD []
    notes_public := (getS d "notes_public" "").getD ""
    notes_gm := (getS d "notes_gm" "").getD ""
    concentrating := (getB d "concentrating" false).getD false }

/-- Success of every field binding of `Hero(**data)`. -/
def heroDictOk (d : JObj) : Bool :=
  (reqS d "name").isSome && (getI d "level" 1).isSome &&
  (getS d "class_name" "").isSome && (getS d "player" "").isSome &&
  (getS d "faction" "Heroes").isSome && (getI d "hp_max" 10).isSome &&
  (getI d "hp_current" 10).isSome && (getI d "temp_hp" 0).isSome &&
  (getS d "resource_1_name" "").isSome && (getI d "resource_1_current" 0).isSome &&
  (getI d "resource_1_max" 0).isSome && (getLS d "conditions" []).isSome &&
  (getS d "notes_public" "").isSome && (getS d "notes_gm" "").isSome &&
  (getB d "concentrating" false).isSome

/-- `Hero.from_dict` = `Hero(**data)`: every field bound by keyword with
its dataclass default as fallback (`name` has no default, so its absence
is a `TypeError`, modelled as `none`). -/
def heroFromDict (d : JObj) : Option Hero :=
  if heroDictOk d then some (heroOfDict d) else none

/-- The dataclass field names of `MonsterInstance`, in declaration order. -/
def monsterFields : List String :=
  ["name", "template_file", "legendary", "level", "armor", "speed", "size",
   "saves", "flavor", "actions", "special_actions", "bloodied_text",
   "last_stand_text", "last_stand_hp_value", "biome_loot", "type", "biome",
   "hp_max", "hp_current", "temp_hp", "last_stand_triggered", "dead",
   "group", "active", "concentrating", "conditions", "notes_public",
   "notes_gm", "marker_color", "marker_number", "shown_bloodied_popup",
   "shown_last_stand_popup"]

/-- `MonsterInstance.to_dict` = `dataclasses.asdict`. -/
def monsterToDict (m : MonsterInstance) : JObj :=
  [("name", .s m.name), ("template_file", .s m.template_file),
   ("legendary", .b m.legendary), ("level", .s m.level), ("armor", .s m.armor),
   ("speed", .s m.speed), ("size", .s m.size), ("saves", .s m.saves),
   ("flavor", .s m.flavor), ("actions", .ls m.actions),
   ("special_actions", .ls m.special_actions),
   ("bloodied_text", .s m.bloodied_text), ("last_stand_text", .s m.last_stand_text),
   ("last_stand_hp_value", .i m.last_stand_hp_value),
   ("biome_loot", .ls m.biome_loot), ("type", .s m.type), ("biome", .s m.biome),
   ("hp_max", .i m.hp_max), ("hp_current", .i m.hp_current),
   ("temp_hp", .i m.temp_hp), ("last_stand_triggered", .b m.last_stand_triggered),
   ("dead", .b m.dead), ("group", .s m.group), ("active", .b m.active),
   ("concentrating", .b m.concentrating), ("conditions", .ls m.conditions),
   ("notes_public", .s m.notes_public), ("notes_gm", .s m.notes_gm),
   ("marker_color", .s m.marker_color), ("marker_number", .i m.marker_number),
   ("shown_bloodied_popup", .b m.shown_bloodied_popup),
   ("shown_last_stand_popup", .b m.shown_last_stand_popup)]

/-- The field-by-field value binding of `MonsterInstance(**data)`
assuming every binding succeeds (see `heroOfDict`): the first nine
fields have no dataclass default, the rest fall back to theirs. -/
def monsterOfDict (d : JObj) : MonsterInstance :=
  { name := (reqS d "name").getD ""
    template_file := (reqS d "template_file").getD ""
    legendary := (reqB d "legendary").getD false
    level := (reqS d "level").getD ""
    armor := (reqS d "armor").getD ""
    speed := (reqS d "speed").getD ""
    size := (reqS d "size").getD ""
    saves := (reqS d "saves").getD ""
    flavor := (reqS d "flavor").getD ""
    actions := (getLS d "actions" []).getD []
    special_actions := (getLS d "special_actions" []).getD []
    bloodied_text := (getS d "bloodied_text" "").getD ""
    last_stand_text := (getS d "last_stand_text" "").getD ""
    last_stand_hp_value := (getI d "last_stand_hp_value" 0).getD 0
    biome_loot := (getLS d "biome_loot" []).getD []
    type := (getS d "type" "").getD ""
    biome := (getS d "biome" "").getD ""
    hp_max := (getI d "hp_max" 0).getD 0
    hp_current := (getI d "hp_current" 0).getD 0
    temp_hp := (getI d "temp_hp" 0).getD 0
    last_stand_triggered := (getB d "last_stand_triggered" false).getD false
    dead := (getB d "dead" false).getD false
    group := (getS d "group" "").getD ""
    active := (getB d "active" true).getD false
    concentrating := (getB d "concentrating" false).getD false
    conditions := (getLS d "conditions" []).getD []
    notes_public := (getS d "notes_public" "").getD ""
    notes_gm := (getS d "notes_gm" "").getD ""
    marker_color := (getS d "marker_color" "").getD ""
    marker_number := (getI d "marker_number" 0).getD 0
    shown_bloodied_popup := (getB d "shown_bloodied_popup" false).getD false
    shown_last_stand_popup := (getB d "shown_last_stand_popup" false).getD false }

/-- Success of every field binding of `MonsterInstance(**data)`. -/
def monsterDictOk (d : JObj) : Bool :=
  (reqS d "name").isSome && (reqS d "template_file").isSome &&
  (reqB d "legendary").isSome && (reqS d "level").isSome &&
  (reqS d "armor").isSome && (reqS d "speed").isSome &&
  (reqS d "size").isSome && (reqS d "saves").isSome &&
  (reqS d "flavor").isSome && (getLS d "actions" []).isSome &&
  (getLS d "special_actions" []).isSome && (getS d "bloodied_text" "").isSome &&
  (getS d "last_stand_text" "").isSome && (getI d "last_stand_hp_value" 0).isSome &&
  (getLS d "biome_loot" []).isSome && (getS d "type" "").isSome &&
  (getS d "biome" "").isSome && (getI d "hp_max" 0).isSome &&
  (getI d "hp_current" 0).isSome && (getI d "temp_hp" 0).isSome &&
  (getB d "last_stand_triggered" false).isSome && (getB d "dead" false).isSome &&
  (getS d "group" "").isSome && (getB d "active" true).isSome &&
  (getB d "concentrating" false).isSome && (getLS d "conditions" []).isSome &&
  (getS d "notes_public" "").isSome && (getS d "notes_gm" "").isSome &&
  (getS d "marker_color" "").isSome && (getI d "marker_number" 0).isSome &&
  (getB d "shown_bloodied_popup" false).isSome &&
  (getB d "shown_last_stand_popup" false).isSome

/-- `MonsterInstance.from_dict` = `MonsterInstance(**data)`. -/
def monsterFromDict (d : JObj) : Option MonsterInstance :=
  if monsterDictOk d then some (monsterOfDict d) else none

/-- The `Party` dataclass. -/
structure Party where
  name : String := "Party"
  heroes : List Hero := []
  notes : String := ""
  deriving Repr, DecidableEq

/-- `Party.to_dict`: explicit name/notes/heroes shape used by
`save_party`. -/
def Party.to_dict (p : Party) : JObj :=
  [("name", .s p.name), ("notes", .s p.notes),
   ("heroes", .arr (p.heroes.map heroToDict))]

/-- The `Encounter` dataclass. -/
structure Encounter where
  name : String := "Encounter"
  monsters : List MonsterInstance := []
  notes : String := ""
  deriving Repr, DecidableEq

/-- `Encounter.to_dict`: explicit name/notes/monsters shape used by
`save_encounter`. -/
def Encounter.to_dict (e : Encounter) : JObj :=
  [("name", .s e.name), ("notes", .s e.notes),
   ("monsters", .arr (e.monsters.map monsterToDict))]

/-- The per-record loop of the load functions: construct each entity
from its field-filtered dict, in order (a failed construction aborts the
load, as the uncaught Python exception would). -/
def loadEntities {α : Type} (decode : JObj → Option α) : List JObj → Option (List α)
  | [] => some []
  | d :: ds => do
    let a ← decode d
    let rest ← loadEntities decode ds
    pure (a :: rest)

/-- `persistence.load_party` on an already-decoded JSON object: read the
`heroes` array (default empty), field-filter each entry against the
`Hero` field set, construct each hero, then bind name/notes with their
defaults. -/
def load_party (raw : JObj) : Option Party := do
  let heroes_data ← match jLookup raw "heroes" with
    | none => some []
    | some (.arr v) => some v
    | some _ => none
  let heroes ← loadEntities (fun h => heroFromDict (filterFields h heroFields)) heroes_data
  let name ← getS raw "name" "Party"
  let notes ← getS raw "notes" ""
  pure { name := name, heroes := heroes, notes := notes }

/-- `persistence.load_encounter` on an already-decoded JSON object. -/
def load_encounter (raw : JObj) : Option Encounter := do
  let monsters_data ← match jLookup raw "monsters" with
    | none => some []
    | some (.arr v) => some v
    | some _ => none
  let monsters ← loadEntities
    (fun m => monsterFromDict (filterFields m monsterFields)) monsters_data
  let name ← getS raw "name" "Encounter"
  let notes ← getS raw "notes" ""
  pure { name := name, monsters := monsters, notes := notes }

/-- `persistence.autosave_session`: the session JSON shape. -/
def autosave_session (heroes : List Hero) (monsters : List MonsterInstance) : JObj :=
  [("heroes", .arr (heroes.map heroToDict)),
   ("monsters", .arr (monsters.map monsterToDict))]

/-- `persistence.load_session` on an already-decoded (existing) session
object: both lists, each entry field-filtered then constructed. -/
def load_session (raw : JObj) : Option (List Hero × List MonsterInstance) := do
  let heroes_data ← match jLookup raw "heroes" with
    | none => some []
    | some (.arr v) => some v
    | some _ => none
  let monsters_data ← match jLookup raw "monsters" with
    | none => some []
    | some (.arr v) => some v
    | some _ => none
  let heroes ← loadEntities (fun h => heroFromDict (filterFields h heroFields)) heroes_data
  let monsters ← loadEntities
    (fun m => monsterFromDict (filterFields m monsterFields)) monsters_data
  pure (heroes, monsters)

/-- A party dict whose every hero entity dict carries extra trailing
keys (the shape claim C9 quantifies over). -/
def partyDictWithExtras (p : Party) (extras : JObj) : JObj :=
  [("name", .s p.name), ("notes", .s p.notes),
   ("heroes", .arr (p.heroes.map (fun h => heroToDict h ++ extras)))]

/-- An encounter dict whose every monster entity dict carries extra
trailing keys. -/
def encounterDictWithExtras (e : Encounter) (extras : JObj) : JObj :=
  [("name", .s e.name), ("notes", .s e.notes),
   ("monsters", .arr (e.monsters.map (fun m => monsterToDict m ++ extras)))]

/-- A session dict whose every entity dict carries extra trailing keys. -/
def sessionDictWithExtras (heroes : List Hero) (monsters : List MonsterInstance)
    (extras : JObj) : JObj :=
  [("heroes", .arr (heroes.map (fun h => heroToDict h ++ extras))),
   ("monsters", .arr (monsters.map (fun m => monsterToDict m ++ extras)))]

/-! ## Helper lemmas on the shared condition-list operations -/

/-- A trimmed non-empty tag is present after `addCond`. -/
theorem mem_addCond_self {c : String} (l : List String)
    (hc : pyStrip c = c) (hne : c ≠ "") : c ∈ addCond l c := by
  unfold addCond
  rw [hc]
  by_cases hmem : c ∈ l
  · simp [hmem]
  · simp [hmem, hne]

/-- `addCond` keeps existing members. -/
theorem mem_addCond_of_mem {a c : String} {l : List String} (h : a ∈ l) :
    a ∈ addCond l c := by
  unfold addCond
  dsimp only
  split
  · exact List.mem_append_left _ h
  · exact h

/-- `addCond` preserves the no-duplicates invariant. -/
theorem nodup_addCond {c : String} {l : List String} (h : l.Nodup) :
    (addCond l c).Nodup := by
  unfold addCond
  dsimp only
  split
  · rename_i hcond
    refine List.Nodup.append h (List.nodup_singleton _) ?_
    intro x hx hx'
    rw [List.mem_singleton] at hx'
    subst hx'
    exact hcond.2 hx
  · exact h

/-- `removeCond` is `List.erase` at the trimmed tag. -/
theorem removeCond_eq_erase (l : List String) (c : String) :
    removeCond l c = l.erase (pyStrip c) := by
  unfold removeCond
  dsimp only
  split
  · rfl
  · rename_i h
    exact (List.erase_of_not_mem h).symm

/-- `removeCond` preserves the no-duplicates invariant. -/
theorem nodup_removeCond {c : String} {l : List String} (h : l.Nodup) :
    (removeCond l c).Nodup := by
  rw [removeCond_eq_erase]
  exact List.Sublist.nodup (List.erase_sublist _ _) h

/-- On a duplicate-free list, `removeCond` eliminates the trimmed tag. -/
theorem not_mem_removeCond_self {c : String} {l : List String}
    (hnd : l.Nodup) (hc : pyStrip c = c) : c ∉ removeCond l c := by
  rw [removeCond_eq_erase, hc]
  intro hmem
  exact ((hnd.mem_erase_iff).mp hmem).1 rfl

/-- `removeCond` keeps every member other than the trimmed tag. -/
theorem mem_removeCond_of_ne {a c : String} {l : List String}
    (h : a ∈ l) (hne : a ≠ pyStrip c) : a ∈ removeCond l c := by
  rw [removeCond_eq_erase]
  exact (List.mem_erase_of_ne hne).mpr h

/-- `removeCond` introduces no members. -/
theorem mem_of_mem_removeCond {a c : String} {l : List String}
    (h : a ∈ removeCond l c) : a ∈ l := by
  rw [removeCond_eq_erase] at h
  exact List.mem_of_mem_erase h

/-- Shape of `MonsterInstance.apply_damage` when the remainder after
temp-HP absorption drives the intermediate HP to or below 0: the
last-stand branch or the death branch, depending on the guard. -/
theorem apply_damage_drop (m : MonsterInstance) (a : Int)
    (ha : 0 < a) (hdead : m.dead = false) (htemp : 0 ≤ m.temp_hp)
    (hdrop : m.hp_current + min m.temp_hp a ≤ a) :
    m.apply_damage a =
      if m.legendary ∧ m.last_stand_text ≠ "" ∧ ¬ m.last_stand_triggered then
        { m with temp_hp := m.temp_hp - min m.temp_hp a,
                 last_stand_triggered := true,
                 hp_current := if m.last_stand_hp_value = 0 then 1 else m.last_stand_hp_value,
                 dead := false,
                 conditions := removeCond (addCond m.conditions "Last Stand") "Dying" }
      else
        { m with temp_hp := m.temp_hp - min m.temp_hp a,
                 hp_current := 0, dead := true,
                 conditions := if "Last Stand" ∈ m.conditions then
                     removeCond m.conditions "Last Stand"
                   else m.conditions } := by
  unfold MonsterInstance.apply_damage
  dsimp only
  rw [if_neg (by push_neg; exact ⟨by omega, by simp [hdead]⟩)]
  have hused : (if 0 < m.temp_hp then min m.temp_hp a else 0) = min m.temp_hp a := by
    split <;> omega
  rw [hused]
  rw [if_neg (show ¬ 0 < (if 0 < a - min m.temp_hp a then
      m.hp_current - (a - min m.temp_hp a) else m.hp_current) by split <;> omega)]

/-- C1: one-shot legendary last stand.  A legendary monster with
non-empty last-stand text whose last stand has not triggered, on a
damage call whose remainder after temp-HP absorption drops HP to ≤ 0,
ends with `last_stand_triggered = true`, `dead = false`,
`hp_current = last_stand_hp_value` (1 when that value is 0), the
"Last Stand" condition added and "Dying" removed; a second such damage
call then ends with `dead = true`, `hp_current = 0`, "Last Stand"
removed, and the trigger flag still (irreversibly) true. -/
theorem C1_last_stand_one_shot
    (m : MonsterInstance) (a b : Int)
    (hleg : m.legendary = true)
    (htext : m.last_stand_text ≠ "")
    (htrig : m.last_stand_triggered = false)
    (hdead : m.dead = false)
    (hnodup : m.conditions.Nodup)
    (htemp : 0 ≤ m.temp_hp)
    (ha : 0 < a)
    (hdrop1 : m.hp_current + min m.temp_hp a ≤ a)
    (hb : 0 < b)
    (hdrop2 : (m.apply_damage a).hp_current + min (m.apply_damage a).temp_hp b ≤ b) :
    ((m.apply_damage a).last_stand_triggered = true ∧
     (m.apply_damage a).dead = false ∧
     (m.apply_damage a).hp_current =
       (if m.last_stand_hp_value = 0 then 1 else m.last_stand_hp_value) ∧
     "Last Stand" ∈ (m.apply_damage a).conditions ∧
     "Dying" ∉ (m.apply_damage a).conditions) ∧
    (((m.apply_damage a).apply_damage b).dead = true ∧
     ((m.apply_damage a).apply_damage b).hp_current = 0 ∧
     "Last Stand" ∉ ((m.apply_damage a).apply_damage b).conditions ∧
     ((m.apply_damage a).apply_damage b).last_stand_triggered = true) := by
  have hstep1 := apply_damage_drop m a ha hdead htemp hdrop1
  rw [if_pos ⟨hleg, htext, by simp [htrig]⟩] at hstep1
  have hLSmem : "Last Stand" ∈ (m.apply_damage a).conditions := by
    rw [hstep1]
    exact mem_removeCond_of_ne
      (mem_addCond_self _ (by decide) (by decide)) (by decide)
  have hnodup1 : (m.apply_damage a).conditions.Nodup := by
    rw [hstep1]
    exact nodup_removeCond (nodup_addCond hnodup)
  have hdead1 : (m.apply_damage a).dead = false := by rw [hstep1]
  have htrig1 : (m.apply_damage a).last_stand_triggered = true := by rw [hstep1]
  have htemp1 : 0 ≤ (m.apply_damage a).temp_hp := by
    rw [hstep1]
    dsimp only
    omega
  have hstep2 := apply_damage_drop (m.apply_damage a) b hb hdead1 htemp1 hdrop2
  rw [if_neg (by simp [htrig1])] at hstep2
  refine ⟨⟨htrig1, hdead1, ?_, hLSmem, ?_⟩, ?_, ?_, ?_, ?_⟩
  · rw [hstep1]
  · rw [hstep1]
    exact not_mem_removeCond_self (nodup_addCond hnodup) (by decide)
  · rw [hstep2]
  · rw [hstep2]
  · rw [hstep2]
    dsimp only
    rw [if_pos hLSmem]
    exact not_mem_removeCond_self hnodup1 (by decide)
  · rw [hstep2]
    exact htrig1

/-- A concrete legendary monster used to instantiate C1. -/
def lastStandTestMonster : MonsterInstance :=
  { legendary := true, last_stand_text := "Fights on!", last_stand_hp_value := 5,
    hp_max := 10, hp_current := 10, temp_hp := 2 }

/-- Witness for C1: two lethal hits on a concrete legendary monster. -/
theorem C1_last_stand_one_shot_witness :
    (lastStandTestMonster.apply_damage 12).last_stand_triggered = true ∧
    (lastStandTestMonster.apply_damage 12).dead = false ∧
    (lastStandTestMonster.apply_damage 12).hp_current = 5 ∧
    "Last Stand" ∈ (lastStandTestMonster.apply_damage 12).conditions ∧
    ((lastStandTestMonster.apply_damage 12).apply_damage 7).dead = true ∧
    ((lastStandTestMonster.apply_damage 12).apply_damage 7).hp_current = 0 ∧
    "Last Stand" ∉ ((lastStandTestMonster.apply_damage 12).apply_damage 7).conditions := by
  have h := C1_last_stand_one_shot lastStandTestMonster 12 7 rfl (by decide) rfl rfl
    (by simp [lastStandTestMonster]) (by decide) (by decide) (by decide) (by decide)
    (by decide)
  refine ⟨h.1.1, h.1.2.1, ?_, h.1.2.2.2.1, h.2.1, h.2.2.1, h.2.2.2.1⟩
  rw [h.1.2.2.1]
  decide

/-- C2: damage conservation.  For positive damage on a hero (with
non-negative temp/current HP) the amount removed from `temp_hp +
hp_current` is exactly `min amount (temp_hp + hp_current)` and neither
pool goes negative; non-positive amounts are a no-op.  The same holds
for a live monster whenever the call does not take the last-stand
transition (phrased as: the trigger flag is unchanged by the call);
non-positive amounts and dead monsters are a no-op. -/
theorem C2_damage_conservation :
    (∀ (h : Hero) (a : Int), 0 < a → 0 ≤ h.temp_hp → 0 ≤ h.hp_current →
       (h.temp_hp + h.hp_current)
           - ((h.apply_damage a).temp_hp + (h.apply_damage a).hp_current)
         = min a (h.temp_hp + h.hp_current) ∧
       0 ≤ (h.apply_damage a).temp_hp ∧ 0 ≤ (h.apply_damage a).hp_current) ∧
    (∀ (h : Hero) (a : Int), a ≤ 0 → h.apply_damage a = h) ∧
    (∀ (m : MonsterInstance) (a : Int), 0 < a → 0 ≤ m.temp_hp → 0 ≤ m.hp_current →
       m.dead = false →
       (m.apply_damage a).last_stand_triggered = m.last_stand_triggered →
       (m.temp_hp + m.hp_current)
           - ((m.apply_damage a).temp_hp + (m.apply_damage a).hp_current)
         = min a (m.temp_hp + m.hp_current) ∧
       0 ≤ (m.apply_damage a).temp_hp ∧ 0 ≤ (m.apply_damage a).hp_current) ∧
    (∀ (m : MonsterInstance) (a : Int), a ≤ 0 ∨ m.dead = true → m.apply_damage a = m) := by
  refine ⟨?_, ?_, ?_, ?_⟩
  · intro h a ha htemp hhp
    unfold Hero.apply_damage
    rw [if_neg (by omega)]
    dsimp only
    refine ⟨?_, ?_, ?_⟩ <;> (split_ifs <;> dsimp only <;> omega)
  · intro h a ha
    unfold Hero.apply_damage
    rw [if_pos ha]
  · intro m a ha htemp hhp hdead htrig
    unfold MonsterInstance.apply_damage at htrig ⊢
    rw [if_neg (by push_neg; exact ⟨by omega, by simp [hdead]⟩)] at htrig ⊢
    dsimp only at htrig ⊢
    refine ⟨?_, ?_, ?_⟩ <;>
      (split_ifs at htrig ⊢ <;> dsimp only at htrig ⊢ <;> first
        | omega
        | (rename_i hguard _; exact absurd htrig (by simp [hguard.2.2])))
  · intro m a h
    unfold MonsterInstance.apply_damage
    rw [if_pos h]

/-- Witness for C2 at concrete inputs. -/
theorem C2_damage_conservation_witness :
    ((({ temp_hp := 3, hp_current := 10 } : Hero).temp_hp
        + ({ temp_hp := 3, hp_current := 10 } : Hero).hp_current)
      - ((({ temp_hp := 3, hp_current := 10 } : Hero).apply_damage 5).temp_hp
        + (({ temp_hp := 3, hp_current := 10 } : Hero).apply_damage 5).hp_current)
      = min 5 (({ temp_hp := 3, hp_current := 10 } : Hero).temp_hp
        + ({ temp_hp := 3, hp_current := 10 } : Hero).hp_current)) ∧
    (({ temp_hp := 0, hp_current := 10 } : MonsterInstance).apply_damage 4).temp_hp
        + (({ temp_hp := 0, hp_current := 10 } : MonsterInstance).apply_damage 4).hp_current
      = 6 ∧
    ({ dead := true, hp_current := 0 } : MonsterInstance).apply_damage 7
      = { dead := true, hp_current := 0 } := by
  refine ⟨?_, ?_, ?_⟩
  · exact (C2_damage_conservation.1 { temp_hp := 3, hp_current := 10 } 5
      (by decide) (by decide) (by decide)).1
  · have h := (C2_damage_conservation.2.2.1 { temp_hp := 0, hp_current := 10 } 4
      (by decide) (by decide) (by decide) rfl (by decide)).1
    dsimp only at h
    omega
  · exact C2_damage_conservation.2.2.2 _ 7 (Or.inr rfl)

/-- Case analysis principle for a goal about an if-then-else value. -/
theorem ite_prop_cases {α : Sort 1} (P : α → Prop) {c : Prop} [Decidable c]
    {a b : α} (ha : c → P a) (hb : ¬ c → P b) : P (if c then a else b) := by
  by_cases hc : c
  · rw [if_pos hc]
    exact ha hc
  · rw [if_neg hc]
    exact hb hc

/-- Outcome shapes of `MonsterInstance.apply_damage` relevant to the
dead-implies-zero-HP invariant: a no-op, a not-dead result, or death at
exactly 0 HP. -/
theorem apply_damage_dead_cases (m : MonsterInstance) (a : Int) :
    m.apply_damage a = m ∨ (m.apply_damage a).dead = false ∨
      ((m.apply_damage a).dead = true ∧ (m.apply_damage a).hp_current = 0) := by
  unfold MonsterInstance.apply_damage
  dsimp only
  refine ite_prop_cases
    (fun x : MonsterInstance => x = m ∨ x.dead = false ∨ (x.dead = true ∧ x.hp_current = 0))
    (fun _ => Or.inl rfl) (fun hg => ?_)
  refine ite_prop_cases
    (fun x : MonsterInstance => x = m ∨ x.dead = false ∨ (x.dead = true ∧ x.hp_current = 0))
    (fun _ => Or.inr (Or.inl ?_)) (fun _ => ?_)
  · show m.dead = false
    push_neg at hg
    simpa using hg.2
  · exact ite_prop_cases
      (fun x : MonsterInstance => x = m ∨ x.dead = false ∨ (x.dead = true ∧ x.hp_current = 0))
      (fun _ => Or.inr (Or.inl rfl)) (fun _ => Or.inr (Or.inr ⟨rfl, rfl⟩))

/-- `MonsterInstance.apply_damage` never resets the last-stand trigger. -/
theorem apply_damage_trigger_mono (m : MonsterInstance) (a : Int)
    (h : m.last_stand_triggered = true) :
    (m.apply_damage a).last_stand_triggered = true := by
  unfold MonsterInstance.apply_damage
  dsimp only
  refine ite_prop_cases (fun x : MonsterInstance => x.last_stand_triggered = true)
    (fun _ => h) (fun _ => ?_)
  refine ite_prop_cases (fun x : MonsterInstance => x.last_stand_triggered = true)
    (fun _ => h) (fun _ => ?_)
  exact ite_prop_cases (fun x : MonsterInstance => x.last_stand_triggered = true)
    (fun _ => rfl) (fun _ => h)

/-- C7: monster state invariants.  Every `MonsterInstance` mutator
preserves "dead implies zero HP", and none of them ever resets
`last_stand_triggered` from true to false. -/
theorem C7_monster_invariants (m : MonsterInstance) (a : Int) (c : String) :
    ((m.dead = true → m.hp_current = 0) →
      (((m.apply_damage a).dead = true → (m.apply_damage a).hp_current = 0) ∧
       ((m.apply_healing a).dead = true → (m.apply_healing a).hp_current = 0) ∧
       ((m.set_temp_hp a).dead = true → (m.set_temp_hp a).hp_current = 0) ∧
       ((m.add_condition c).dead = true → (m.add_condition c).hp_current = 0) ∧
       ((m.remove_condition c).dead = true → (m.remove_condition c).hp_current = 0))) ∧
    (m.last_stand_triggered = true →
      ((m.apply_damage a).last_stand_triggered = true ∧
       (m.apply_healing a).last_stand_triggered = true ∧
       (m.set_temp_hp a).last_stand_triggered = true ∧
       (m.add_condition c).last_stand_triggered = true ∧
       (m.remove_condition c).last_stand_triggered = true)) := by
  constructor
  · intro hinv
    refine ⟨?_, ?_, ?_, ?_, ?_⟩
    · rcases apply_damage_dead_cases m a with heq | hf | hdz
      · rw [heq]
        exact hinv
      · intro hd
        rw [hf] at hd
        cases hd
      · intro _
        exact hdz.2
    · unfold MonsterInstance.apply_healing
      split_ifs with hg
      · exact hinv
      · dsimp only
        intro hd
        exact absurd (Or.inr hd) hg
    · exact hinv
    · exact hinv
    · exact hinv
  · intro htrig
    refine ⟨apply_damage_trigger_mono m a htrig, ?_, htrig, htrig, htrig⟩
    unfold MonsterInstance.apply_healing
    exact ite_prop_cases (fun x : MonsterInstance => x.last_stand_triggered = true)
      (fun _ => htrig) (fun _ => htrig)

/-- Witness for C7 at a concrete monster. -/
theorem C7_monster_invariants_witness :
    ((({ hp_current := 3, last_stand_triggered := true } :
        MonsterInstance).apply_damage 5).dead = true →
      (({ hp_current := 3, last_stand_triggered := true } :
        MonsterInstance).apply_damage 5).hp_current = 0) ∧
    (({ hp_current := 3, last_stand_triggered := true } :
        MonsterInstance).apply_damage 5).last_stand_triggered = true := by
  have h := C7_monster_invariants
    ({ hp_current := 3, last_stand_triggered := true } : MonsterInstance) 5 "Stunned"
  exact ⟨(h.1 (by intro hc; cases hc)).1, (h.2 rfl).1⟩

/-- C8: status bands.  With positive `hp_max`, `is_critical` holds iff
`0 < hp_current ≤ hp_max · critical_threshold`; `is_bloodied` requires
`hp_current > 0` and strictly above the critical threshold; hence the
two flags are mutually exclusive (in every state), for heroes and
monsters alike. -/
theorem C8_status_bands (cfg : Config) (h : Hero) (m : MonsterInstance) :
    (0 < h.hp_max →
      ((h.is_critical cfg = true ↔
         0 < h.hp_current ∧
         (h.hp_current : ℚ) ≤ (h.hp_max : ℚ) * cfg.hero_critical_threshold) ∧
       (h.is_bloodied cfg = true →
         0 < h.hp_current ∧
         (h.hp_max : ℚ) * cfg.hero_critical_threshold < (h.hp_current : ℚ)))) ∧
    ¬(h.is_bloodied cfg = true ∧ h.is_critical cfg = true) ∧
    (0 < m.hp_max →
      ((m.is_critical cfg = true ↔
         0 < m.hp_current ∧
         (m.hp_current : ℚ) ≤ (m.hp_max : ℚ) * cfg.monster_critical_threshold) ∧
       (m.is_bloodied cfg = true →
         0 < m.hp_current ∧
         (m.hp_max : ℚ) * cfg.monster_critical_threshold < (m.hp_current : ℚ)))) ∧
    ¬(m.is_bloodied cfg = true ∧ m.is_critical cfg = true) := by
  refine ⟨?_, ?_, ?_, ?_⟩
  · intro hmax
    unfold Hero.is_critical Hero.is_bloodied
    rw [if_neg (by omega), if_neg (by omega)]
    constructor
    · simp [decide_eq_true_eq]
    · intro hb
      have hb1 := of_decide_eq_true hb
      exact ⟨hb1.1, hb1.2.2⟩
  · unfold Hero.is_critical Hero.is_bloodied
    split_ifs
    · simp
    · simp only [decide_eq_true_eq]
      rintro ⟨hb, hc⟩
      linarith [hb.2.2, hc.2]
  · intro hmax
    unfold MonsterInstance.is_critical MonsterInstance.is_bloodied
    rw [if_neg (by omega), if_neg (by omega)]
    constructor
    · simp [decide_eq_true_eq]
    · intro hb
      have hb1 := of_decide_eq_true hb
      exact ⟨hb1.1, hb1.2.2⟩
  · unfold MonsterInstance.is_critical MonsterInstance.is_bloodied
    split_ifs
    · simp
    · simp only [decide_eq_true_eq]
      rintro ⟨hb, hc⟩
      linarith [hb.2.2, hc.2]

/-- Witness for C8: default thresholds, a hero at 2/10 HP (critical,
not bloodied) and a monster at 4/10 HP (bloodied, not critical). -/
theorem C8_status_bands_witness :
    (({ hp_max := 10, hp_current := 2 } : Hero).is_critical {} = true) ∧
    ¬((({ hp_max := 10, hp_current := 4 } : MonsterInstance).is_bloodied {} = true) ∧
      (({ hp_max := 10, hp_current := 4 } : MonsterInstance).is_critical {} = true)) := by
  constructor
  · exact ((C8_status_bands {} { hp_max := 10, hp_current := 2 } {}).1
      (by decide)).1.mpr (by constructor <;> norm_num)
  · exact (C8_status_bands {} {} { hp_max := 10, hp_current := 4 }).2.2.2

/-- C10 (implicit): `Hero.apply_healing` also removes "Dying" whenever
the healed `hp_current` ends positive (on a duplicate-free condition
list), while `MonsterInstance.apply_healing` never touches the
conditions list. -/
theorem C10_healing_conditions :
    (∀ (h : Hero) (a : Int), 0 < a → h.conditions.Nodup →
       0 < (h.apply_healing a).hp_current →
       "Dying" ∉ (h.apply_healing a).conditions) ∧
    (∀ (m : MonsterInstance) (a : Int), (m.apply_healing a).conditions = m.conditions) := by
  constructor
  · intro h a ha hnd hpos
    unfold Hero.apply_healing at hpos ⊢
    rw [if_neg (by omega)] at hpos ⊢
    dsimp only at hpos ⊢
    rw [apply_ite Hero.hp_current] at hpos
    dsimp only at hpos
    rw [ite_self] at hpos
    rw [if_pos hpos]
    exact not_mem_removeCond_self hnd (by decide)
  · intro m a
    unfold MonsterInstance.apply_healing
    split_ifs <;> rfl

/-- Witness for C10: healing a downed hero with the "Dying" tag. -/
theorem C10_healing_conditions_witness :
    "Dying" ∉ (({ hp_current := 0, conditions := ["Dying"] } : Hero).apply_healing 5).conditions ∧
    (({ hp_current := 3, conditions := ["Stunned"] } : MonsterInstance).apply_healing 4).conditions
      = ["Stunned"] := by
  constructor
  · exact C10_healing_conditions.1 { hp_current := 0, conditions := ["Dying"] } 5
      (by decide) (by simp) (by decide)
  · exact C10_healing_conditions.2 { hp_current := 3, conditions := ["Stunned"] } 4

deriving instance DecidableEq for Except

section
/- `Rat.add`/`mul`/`inv`/`sub` are `@[irreducible]` in Batteries; the
concrete evaluations below need them to unfold. -/
attribute [local semireducible] Rat.add Rat.sub Rat.mul Rat.inv

/-- C4: difficulty boundary operators.  For ascending positive
thresholds and a non-negative quotient, the label chain is exactly:
"No Encounter" iff 0, "Easy" iff (0, easy), "Medium" iff [easy, medium),
"Hard" iff [medium, hard), "Deadly" iff [hard, deadly_max],
"Very Deadly" iff above; the quotient is 0 with no heroes; and the
spec's concrete boundary examples hold at the default thresholds. -/
theorem C4_difficulty_boundaries :
    (∀ (cfg : Config) (q : ℚ), 0 ≤ q →
      0 < cfg.encounter_difficulty_easy →
      cfg.encounter_difficulty_easy ≤ cfg.encounter_difficulty_medium →
      cfg.encounter_difficulty_medium ≤ cfg.encounter_difficulty_hard →
      cfg.encounter_difficulty_hard ≤ cfg.encounter_difficulty_deadly_max →
      ((CombatManager.difficulty_label_of cfg q = "No Encounter" ↔ q = 0) ∧
       (CombatManager.difficulty_label_of cfg q = "Easy" ↔
          0 < q ∧ q < cfg.encounter_difficulty_easy) ∧
       (CombatManager.difficulty_label_of cfg q = "Medium" ↔
          cfg.encounter_difficulty_easy ≤ q ∧ q < cfg.encounter_difficulty_medium) ∧
       (CombatManager.difficulty_label_of cfg q = "Hard" ↔
          cfg.encounter_difficulty_medium ≤ q ∧ q < cfg.encounter_difficulty_hard) ∧
       (CombatManager.difficulty_label_of cfg q = "Deadly" ↔
          cfg.encounter_difficulty_hard ≤ q ∧ q ≤ cfg.encounter_difficulty_deadly_max) ∧
       (CombatManager.difficulty_label_of cfg q = "Very Deadly" ↔
          cfg.encounter_difficulty_deadly_max < q))) ∧
    (∀ monsters : List MonsterInstance,
       CombatManager.encounter_difficulty_quotient [] monsters = Except.ok 0) ∧
    CombatManager.encounter_difficulty_label {} [{ level := 10 }] [{ level := "4" }]
      = Except.ok "Easy" ∧
    CombatManager.encounter_difficulty_label {} [{ level := 10 }] [{ level := "5" }]
      = Except.ok "Medium" ∧
    CombatManager.encounter_difficulty_label {} [{ level := 10 }] [{ level := "12.5" }]
      = Except.ok "Deadly" ∧
    CombatManager.encounter_difficulty_label {} [{ level := 10 }] [{ level := "13" }]
      = Except.ok "Very Deadly" ∧
    CombatManager.encounter_difficulty_label {} [{ level := 10 }] []
      = Except.ok "No Encounter" := by
  refine ⟨?_, ?_, by decide, by decide, by decide, by decide, by decide⟩
  · intro cfg q h0 he hem hmh hhd
    unfold CombatManager.difficulty_label_of
    split_ifs with h1 h2 h3 h4 h5 <;>
      refine ⟨?_, ?_, ?_, ?_, ?_, ?_⟩ <;>
      constructor <;>
      intro hx <;>
      first
        | rfl
        | exact absurd hx (by decide)
        | exact h1
        | exact ⟨h0.lt_of_ne (fun heq => h1 heq.symm), h2⟩
        | (push_neg at h2; exact ⟨h2, h3⟩)
        | (push_neg at h3; exact ⟨h3, h4⟩)
        | (push_neg at h4; exact ⟨h4, h5⟩)
        | (push_neg at h5; exact h5)
        | (exfalso; exact h1 hx)
        | (exfalso; rcases hx with ⟨hx1, hx2⟩; push_neg at *; linarith)
        | (exfalso; push_neg at *; linarith)
  · intro monsters
    rfl

/-- Witness for C4: the boundary characterization applied at the default
thresholds and quotient 1/2 (the easy/medium boundary). -/
theorem C4_difficulty_boundaries_witness :
    CombatManager.difficulty_label_of {} (1/2) = "Medium" := by
  exact ((C4_difficulty_boundaries.1 {} (1/2) (by norm_num) (by norm_num)
    (by norm_num) (by norm_num) (by norm_num)).2.2.1).mpr (by norm_num)

/-- C5: level parsing in `total_monster_levels`.  The documented forms
parse as specified ("3", "3.5", "1/2", "2 (swarm)" contribute 3, 3.5,
0.5, 2), dead monsters are excluded, and unparsable strings are skipped
— but the claim "the call never raises, for any level string" fails:
a fraction token with a zero denominator ("1/0") raises
`ZeroDivisionError`, which the `except (ValueError, TypeError)` clause
does not catch. -/
theorem C5_level_parsing_zero_division :
    CombatManager.total_monster_levels
        [{ level := "3" }, { level := "3.5" }, { level := "1/2" }, { level := "2 (swarm)" }]
      = Except.ok 9 ∧
    CombatManager.total_monster_levels
        [{ level := "3" }, { level := "99", dead := true }, { level := "gibberish" }]
      = Except.ok 3 ∧
    CombatManager.total_monster_levels [{ level := "1/0" }]
      = Except.error "ZeroDivisionError" ∧
    CombatManager.total_monster_levels [{ level := "1/0", dead := true }]
      = Except.ok 0 := by
  exact ⟨by decide, by decide, by decide, by decide⟩

end

/-- The scan inside `_next_marker_number_for_color`, as a reusable fold. -/
def markerFold (color : String) (l : List MonsterInstance) (acc : Int) : Int :=
  l.foldl
    (fun acc m => if m.marker_color == color ∧ acc < m.marker_number then m.marker_number else acc)
    acc

/-- `next_marker_number_for_color` in terms of the scan fold. -/
theorem next_marker_number_eq_fold (cfg : Config) (monsters : List MonsterInstance)
    (color : String) :
    CombatManager.next_marker_number_for_color cfg monsters color =
      if markerFold color monsters 0 ≤ 0 then cfg.marker_start_number
      else markerFold color monsters 0 + 1 := rfl

/-- The scan never drops below its accumulator. -/
theorem markerFold_le_self (color : String) (l : List MonsterInstance) :
    ∀ acc : Int, acc ≤ markerFold color l acc := by
  induction l with
  | nil =>
    intro acc
    exact le_refl _
  | cons m l ih =>
    intro acc
    show acc ≤ markerFold color l
      (if m.marker_color == color ∧ acc < m.marker_number then m.marker_number else acc)
    refine le_trans ?_ (ih _)
    split_ifs with h
    · exact le_of_lt h.2
    · exact le_refl _

/-- Every matching monster's number bounds the scan from below. -/
theorem markerFold_mem_le (color : String) (mm : MonsterInstance) :
    ∀ (l : List MonsterInstance), mm ∈ l → mm.marker_color = color →
      ∀ acc, mm.marker_number ≤ markerFold color l acc := by
  intro l
  induction l with
  | nil =>
    intro h
    cases h
  | cons m l ih =>
    intro hmem hcol acc
    rcases List.mem_cons.mp hmem with heq | htail
    · subst heq
      show mm.marker_number ≤ markerFold color l
        (if mm.marker_color == color ∧ acc < mm.marker_number then mm.marker_number else acc)
      refine le_trans ?_ (markerFold_le_self color l _)
      split_ifs with h
      · exact le_refl _
      · rw [hcol] at h
        simp only [beq_self_eq_true, true_and, not_lt] at h
        exact h
    · exact ih htail hcol _

/-- The scan returns its accumulator or some matching monster's number. -/
theorem markerFold_cases (color : String) :
    ∀ (l : List MonsterInstance) (acc : Int),
      markerFold color l acc = acc ∨
      ∃ mm ∈ l, mm.marker_color = color ∧ markerFold color l acc = mm.marker_number := by
  intro l
  induction l with
  | nil =>
    intro acc
    exact Or.inl rfl
  | cons m l ih =>
    intro acc
    by_cases h : (m.marker_color == color) = true ∧ acc < m.marker_number
    · have heq : markerFold color (m :: l) acc = markerFold color l m.marker_number := by
        show markerFold color l
          (if m.marker_color == color ∧ acc < m.marker_number then m.marker_number else acc) = _
        rw [if_pos h]
      rw [heq]
      rcases ih m.marker_number with h1 | ⟨mm, hmm, hc, he⟩
      · exact Or.inr ⟨m, List.mem_cons_self m l, by simpa using h.1, h1⟩
      · exact Or.inr ⟨mm, List.mem_cons_of_mem m hmm, hc, he⟩
    · have heq : markerFold color (m :: l) acc = markerFold color l acc := by
        show markerFold color l
          (if m.marker_color == color ∧ acc < m.marker_number then m.marker_number else acc) = _
        rw [if_neg h]
      rw [heq]
      rcases ih acc with h1 | ⟨mm, hmm, hc, he⟩
      · exact Or.inl h1
      · exact Or.inr ⟨mm, List.mem_cons_of_mem m hmm, hc, he⟩

/-- A dict lookup that misses `d` finds a freshly appended binding. -/
theorem dictLookup_append_self {d : List (String × String)} {g c : String}
    (h : dictLookup d g = none) : dictLookup (d ++ [(g, c)]) g = some c := by
  unfold dictLookup at h ⊢
  rw [List.find?_append]
  rcases hfind : List.find? (fun kv => kv.1 == g) d with _ | kv
  · rw [hfind]
    simp [Option.or, List.find?]
  · rw [hfind] at h
    simp at h

/-- Assigning a color to a group is stable: re-running the lookup on the
updated state returns the same color without further state change. -/
theorem get_or_assign_stable (st : ManagerState) (g : String) :
    ∀ c st1, CombatManager.get_or_assign_group_color st g = (c, st1) →
      CombatManager.get_or_assign_group_color st1 g = (c, st1) := by
  intro c st1 h
  unfold CombatManager.get_or_assign_group_color at h ⊢
  dsimp only at h ⊢
  cases hlook : dictLookup st.group_color_map g with
  | some c0 =>
      rw [hlook] at h
      dsimp only at h
      cases h
      rw [hlook]
  | none =>
      rw [hlook] at h
      dsimp only at h
      cases h
      dsimp only
      rw [dictLookup_append_self hlook]

/-- C3 counterexample: with `marker_start_number = 5` and one current
monster carrying color "#FF0000" with `marker_number = 0` (markers with
number 0 are "unassigned" but survive encounter loading as-is), the code
returns the start number 5, while the claim's rule — max marker_number
over monsters with that color, plus one — yields 1. -/
theorem C3_marker_number_counterexample :
    CombatManager.next_marker_number_for_color { marker_start_number := 5 }
        [{ marker_color := "#FF0000", marker_number := 0 }] "#FF0000" = 5 ∧
    specNextMarkerNumber { marker_start_number := 5 }
        [{ marker_color := "#FF0000", marker_number := 0 }] "#FF0000" = 1 ∧
    CombatManager.next_marker_number_for_color { marker_start_number := 5 }
        [{ marker_color := "#FF0000", marker_number := 0 }] "#FF0000" ≠
      specNextMarkerNumber { marker_start_number := 5 }
        [{ marker_color := "#FF0000", marker_number := 0 }] "#FF0000" := by
  exact ⟨by decide, by decide, by decide⟩

/-- C3 (amended): group→color assignment is stable (monsters sharing a
group share its color); the auto-assigned number for a color is
`marker_start_number` when no current monster of that color has a
positive marker number, and (max positive marker_number over that
color) + 1 otherwise; and the concrete "A","A","B" insertion example
under a length-3 palette with start number 1 yields colors
palette[0], palette[0], palette[1] with numbers 1, 2, 1. -/
theorem C3_marker_assignment_amended :
    (∀ (st : ManagerState) (g : String),
       (CombatManager.get_or_assign_group_color
           (CombatManager.get_or_assign_group_color st g).2 g).1 =
         (CombatManager.get_or_assign_group_color st g).1) ∧
    (∀ (cfg : Config) (monsters : List MonsterInstance) (color : String),
       (∀ m ∈ monsters, m.marker_color = color → m.marker_number ≤ 0) →
       CombatManager.next_marker_number_for_color cfg monsters color
         = cfg.marker_start_number) ∧
    (∀ (cfg : Config) (monsters : List MonsterInstance) (color : String) (mx : Int),
       0 < mx →
       (∃ m ∈ monsters, m.marker_color = color ∧ m.marker_number = mx) →
       (∀ m ∈ monsters, m.marker_color = color → m.marker_number ≤ mx) →
       CombatManager.next_marker_number_for_color cfg monsters color = mx + 1) ∧
    ((CombatManager.add_monster_instance { marker_start_number := 1 }
        (CombatManager.add_monster_instance { marker_start_number := 1 }
          (CombatManager.add_monster_instance { marker_start_number := 1 }
            { marker_palette := ["#E74C3C", "#3498DB", "#2ECC71"] }
            { group := "A" })
          { group := "A" })
        { group := "B" }).monsters.map (fun m => (m.marker_color, m.marker_number)))
      = [("#E74C3C", 1), ("#E74C3C", 2), ("#3498DB", 1)] := by
  refine ⟨?_, ?_, ?_, by decide⟩
  · intro st g
    exact congrArg Prod.fst (get_or_assign_stable st g _ _ rfl)
  · intro cfg monsters color hle
    rw [next_marker_number_eq_fold]
    have hfold : markerFold color monsters 0 ≤ 0 := by
      rcases markerFold_cases color monsters 0 with h0 | ⟨mm, hmm, hc, he⟩
      · omega
      · rw [he]
        exact hle mm hmm hc
    rw [if_pos hfold]
  · intro cfg monsters color mx hpos hwit hub
    rcases hwit with ⟨mw, hmw, hcw, hnw⟩
    have hge : mx ≤ markerFold color monsters 0 := by
      rw [← hnw]
      exact markerFold_mem_le color mw monsters hmw hcw 0
    have hle2 : markerFold color monsters 0 ≤ mx := by
      rcases markerFold_cases color monsters 0 with h0 | ⟨mm, hmm, hc, he⟩
      · omega
      · rw [he]
        exact hub mm hmm hc
    rw [next_marker_number_eq_fold, if_neg (by omega),
      le_antisymm hle2 hge]

/-- Witness for C3's amended theorem: one numbered red monster on the
board, next red number is 4; an all-unassigned color falls back to the
start number. -/
theorem C3_marker_assignment_amended_witness :
    CombatManager.next_marker_number_for_color { marker_start_number := 1 }
        [{ marker_color := "#FF0000", marker_number := 3 }] "#FF0000" = 4 ∧
    CombatManager.next_marker_number_for_color { marker_start_number := 7 }
        [{ marker_color := "#00FF00", marker_number := 0 }] "#00FF00" = 7 := by
  constructor
  · exact C3_marker_assignment_amended.2.2.1 { marker_start_number := 1 }
      [{ marker_color := "#FF0000", marker_number := 3 }] "#FF0000" 3 (by decide)
      ⟨{ marker_color := "#FF0000", marker_number := 3 }, by decide, rfl, rfl⟩
      (by intro m hm hc; simp at hm; rw [hm])
  · exact C3_marker_assignment_amended.2.1 { marker_start_number := 7 }
      [{ marker_color := "#00FF00", marker_number := 0 }] "#00FF00"
      (by intro m hm hc; simp at hm; rw [hm])

/-- C6 counterexample: a state-changed callback that raises propagates
its exception out of the mutation (`_changed` has no `try/except`), so
the caller of `damage_hero` does not get a clean return — refuting the
claim that both callback exceptions are caught at the call site. -/
theorem C6_state_changed_counterexample :
    (CombatManager.damage_hero true true (some (Except.error "boom")) none
        { hp_current := 10 } 3).outcome = Except.error "boom" ∧
    (CombatManager.damage_hero true true (some (Except.error "boom")) none
        { hp_current := 10 } 3).outcome ≠ Except.ok () := by
  exact ⟨rfl, by decide⟩

/-- C6 (amended): a raising concentration-note callback is caught at the
call site and logged, and neither the mutation's state change nor the
caller-visible outcome depends on it; a raising state-changed callback,
by contrast, propagates its exception to the caller of the mutation
(the in-place hero mutation still survives). -/
theorem C6_callback_exception_policy :
    (∀ (log : List String) (exc : String),
       CombatManager.notify_concentration_note log (some (Except.error exc))
         = log ++ ["Concentration note handler failed: " ++ exc]) ∧
    (∀ (lde ld : Bool) (osc : Option (Except String Unit)) (exc : String)
       (h : Hero) (a : Int),
       (CombatManager.damage_hero lde ld osc (some (Except.error exc)) h a).outcome
         = CombatManager.changed osc ∧
       (CombatManager.damage_hero lde ld osc (some (Except.error exc)) h a).state
         = h.apply_damage a) ∧
    (∀ (lde ld : Bool) (occ : Option (Except String Unit)) (exc : String)
       (h : Hero) (a : Int),
       (CombatManager.damage_hero lde ld (some (Except.error exc)) occ h a).outcome
         = Except.error exc ∧
       (CombatManager.damage_hero lde ld (some (Except.error exc)) occ h a).state
         = h.apply_damage a) := by
  exact ⟨fun log exc => rfl, fun lde ld osc exc h a => ⟨rfl, rfl⟩,
    fun lde ld occ exc h a => ⟨rfl, rfl⟩⟩

/-- Witness for C6's amended theorem at concrete inputs. -/
theorem C6_callback_exception_policy_witness :
    CombatManager.notify_concentration_note [] (some (Except.error "cb failed"))
      = ["Concentration note handler failed: cb failed"] ∧
    (CombatManager.damage_hero true true none (some (Except.error "cb failed"))
        { hp_current := 10, concentrating := true } 3).outcome = Except.ok () := by
  constructor
  · exact C6_callback_exception_policy.1 [] "cb failed"
  · rw [(C6_callback_exception_policy.2.1 true true none "cb failed"
      { hp_current := 10, concentrating := true } 3).1]
    rfl

/-- Rebinding a serialized hero dict reproduces the hero. -/
theorem heroFromDict_toDict (h : Hero) : heroFromDict (heroToDict h) = some h := rfl

/-- Rebinding a serialized monster dict reproduces the monster. -/
theorem monsterFromDict_toDict (m : MonsterInstance) :
    monsterFromDict (monsterToDict m) = some m := rfl

/-- Field filtering keeps every serialized hero field. -/
theorem filterFields_heroToDict (h : Hero) :
    filterFields (heroToDict h) heroFields = heroToDict h := rfl

/-- Field filtering keeps every serialized monster field. -/
theorem filterFields_monsterToDict (m : MonsterInstance) :
    filterFields (monsterToDict m) monsterFields = monsterToDict m := rfl

/-- Field filtering drops a dict of unrecognized keys entirely. -/
theorem filterFields_extras_nil {extras : JObj} {fields : List String}
    (hex : ∀ kv ∈ extras, kv.1 ∉ fields) :
    filterFields extras fields = [] := by
  unfold filterFields
  rw [List.filter_eq_nil_iff]
  intro kv hkv
  simpa using hex kv hkv

/-- `_filter_fields` distributes over dict concatenation. -/
theorem filterFields_append (d e : JObj) (fields : List String) :
    filterFields (d ++ e) fields = filterFields d fields ++ filterFields e fields :=
  List.filter_append d e

/-- A serialized hero dict with trailing unrecognized keys filters back
to the serialized dict alone. -/
theorem filter_hero_extras (h : Hero) {extras : JObj}
    (hex : ∀ kv ∈ extras, kv.1 ∉ heroFields) :
    filterFields (heroToDict h ++ extras) heroFields = heroToDict h := by
  rw [filterFields_append, filterFields_extras_nil hex, filterFields_heroToDict,
    List.append_nil]

/-- A serialized monster dict with trailing unrecognized keys filters
back to the serialized dict alone. -/
theorem filter_monster_extras (m : MonsterInstance) {extras : JObj}
    (hex : ∀ kv ∈ extras, kv.1 ∉ monsterFields) :
    filterFields (monsterToDict m ++ extras) monsterFields = monsterToDict m := by
  rw [filterFields_append, filterFields_extras_nil hex, filterFields_monsterToDict,
    List.append_nil]

/-- The per-record load loop inverts serialization pointwise. -/
theorem loadEntities_roundtrip {α : Type} (decode : JObj → Option α) (g : α → JObj)
    (l : List α) (hpt : ∀ a, decode (g a) = some a) :
    loadEntities decode (l.map g) = some l := by
  induction l with
  | nil => rfl
  | cons a l ih =>
    show loadEntities decode (g a :: l.map g) = some (a :: l)
    unfold loadEntities
    rw [hpt a, ih]
    rfl

/-- C9: persistence round-trips.  Serializing a `Party`, an `Encounter`,
or a session (hero list + monster list) and loading it back reproduces
the entities field-for-field, and the same holds when every entity dict
additionally carries unrecognized keys — those are filtered out before
construction rather than erroring. -/
theorem C9_persistence_roundtrip :
    (∀ p : Party, load_party (Party.to_dict p) = some p) ∧
    (∀ e : Encounter, load_encounter (Encounter.to_dict e) = some e) ∧
    (∀ (hs : List Hero) (ms : List MonsterInstance),
       load_session (autosave_session hs ms) = some (hs, ms)) ∧
    (∀ (p : Party) (extras : JObj), (∀ kv ∈ extras, kv.1 ∉ heroFields) →
       load_party (partyDictWithExtras p extras) = some p) ∧
    (∀ (e : Encounter) (extras : JObj), (∀ kv ∈ extras, kv.1 ∉ monsterFields) →
       load_encounter (encounterDictWithExtras e extras) = some e) ∧
    (∀ (hs : List Hero) (ms : List MonsterInstance) (extras : JObj),
       (∀ kv ∈ extras, kv.1 ∉ heroFields) →
       (∀ kv ∈ extras, kv.1 ∉ monsterFields) →
       load_session (sessionDictWithExtras hs ms extras) = some (hs, ms)) := by
  refine ⟨?_, ?_, ?_, ?_, ?_, ?_⟩
  · intro p
    have hl : loadEntities (fun h => heroFromDict (filterFields h heroFields))
        (p.heroes.map heroToDict) = some p.heroes := by
      refine loadEntities_roundtrip _ heroToDict p.heroes (fun a => ?_)
      rw [filterFields_heroToDict]
      exact heroFromDict_toDict a
    calc load_party (Party.to_dict p)
        = (loadEntities (fun h => heroFromDict (filterFields h heroFields))
            (p.heroes.map heroToDict)).bind
            (fun heroes => some { name := p.name, heroes := heroes, notes := p.notes }) := rfl
      _ = some p := by
          rw [hl]
          rfl
  · intro e
    have hl : loadEntities (fun m => monsterFromDict (filterFields m monsterFields))
        (e.monsters.map monsterToDict) = some e.monsters := by
      refine loadEntities_roundtrip _ monsterToDict e.monsters (fun a => ?_)
      rw [filterFields_monsterToDict]
      exact monsterFromDict_toDict a
    calc load_encounter (Encounter.to_dict e)
        = (loadEntities (fun m => monsterFromDict (filterFields m monsterFields))
            (e.monsters.map monsterToDict)).bind
            (fun monsters => some { name := e.name, monsters := monsters, notes := e.notes }) := rfl
      _ = some e := by
          rw [hl]
          rfl
  · intro hs ms
    have hl1 : loadEntities (fun h => heroFromDict (filterFields h heroFields))
        (hs.map heroToDict) = some hs := by
      refine loadEntities_roundtrip _ heroToDict hs (fun a => ?_)
      rw [filterFields_heroToDict]
      exact heroFromDict_toDict a
    have hl2 : loadEntities (fun m => monsterFromDict (filterFields m monsterFields))
        (ms.map monsterToDict) = some ms := by
      refine loadEntities_roundtrip _ monsterToDict ms (fun a => ?_)
      rw [filterFields_monsterToDict]
      exact monsterFromDict_toDict a
    calc load_session (autosave_session hs ms)
        = (loadEntities (fun h => heroFromDict (filterFields h heroFields))
            (hs.map heroToDict)).bind
            (fun heroes =>
              (loadEntities (fun m => monsterFromDict (filterFields m monsterFields))
                (ms.map monsterToDict)).bind
                (fun monsters => some (heroes, monsters))) := rfl
      _ = some (hs, ms) := by
          rw [hl1, hl2]
          rfl
  · intro p extras hex
    have hl : loadEntities (fun h => heroFromDict (filterFields h heroFields))
        (p.heroes.map (fun h => heroToDict h ++ extras)) = some p.heroes := by
      refine loadEntities_roundtrip _ (fun h => heroToDict h ++ extras) p.heroes (fun a => ?_)
      rw [filter_hero_extras a hex]
      exact heroFromDict_toDict a
    calc load_party (partyDictWithExtras p extras)
        = (loadEntities (fun h => heroFromDict (filterFields h heroFields))
            (p.heroes.map (fun h => heroToDict h ++ extras))).bind
            (fun heroes => some { name := p.name, heroes := heroes, notes := p.notes }) := rfl
      _ = some p := by
          rw [hl]
          rfl
  · intro e extras hex
    have hl : loadEntities (fun m => monsterFromDict (filterFields m monsterFields))
        (e.monsters.map (fun m => monsterToDict m ++ extras)) = some e.monsters := by
      refine loadEntities_roundtrip _ (fun m => monsterToDict m ++ extras) e.monsters
        (fun a => ?_)
      rw [filter_monster_extras a hex]
      exact monsterFromDict_toDict a
    calc load_encounter (encounterDictWithExtras e extras)
        = (loadEntities (fun m => monsterFromDict (filterFields m monsterFields))
            (e.monsters.map (fun m => monsterToDict m ++ extras))).bind
            (fun monsters => some { name := e.name, monsters := monsters, notes := e.notes }) := rfl
      _ = some e := by
          rw [hl]
          rfl
  · intro hs ms extras hexh hexm
    have hl1 : loadEntities (fun h => heroFromDict (filterFields h heroFields))
        (hs.map (fun h => heroToDict h ++ extras)) = some hs := by
      refine loadEntities_roundtrip _ (fun h => heroToDict h ++ extras) hs (fun a => ?_)
      rw [filter_hero_extras a hexh]
      exact heroFromDict_toDict a
    have hl2 : loadEntities (fun m => monsterFromDict (filterFields m monsterFields))
        (ms.map (fun m => monsterToDict m ++ extras)) = some ms := by
      refine loadEntities_roundtrip _ (fun m => monsterToDict m ++ extras) ms (fun a => ?_)
      rw [filter_monster_extras a hexm]
      exact monsterFromDict_toDict a
    calc load_session (sessionDictWithExtras hs ms extras)
        = (loadEntities (fun h => heroFromDict (filterFields h heroFields))
            (hs.map (fun h => heroToDict h ++ extras))).bind
            (fun heroes =>
              (loadEntities (fun m => monsterFromDict (filterFields m monsterFields))
                (ms.map (fun m => monsterToDict m ++ extras))).bind
                (fun monsters => some (heroes, monsters))) := rfl
      _ = some (hs, ms) := by
          rw [hl1, hl2]
          rfl

/-- Witness for C9: a one-hero party whose hero dict carries a legacy
"id" key round-trips unchanged. -/
theorem C9_persistence_roundtrip_witness :
    load_party (partyDictWithExtras
        { name := "Party A", heroes := [{ name := "Alice" }] } [("id", JVal.i 7)])
      = some { name := "Party A", heroes := [{ name := "Alice" }] } := by
  exact C9_persistence_roundtrip.2.2.2.1
    { name := "Party A", heroes := [{ name := "Alice" }] } [("id", JVal.i 7)]
    (by decide)
